import Mathlib

/-!
Verification of the fallback-chain executor, usage ledger and model catalog
of the pydantic-ai scaffolding repository.

The Python source is embedded shallowly:
* loops become structural recursions carrying the same accumulators;
* machine floats on the accounting paths are modelled as exact rationals;
* `datetime.now()` stamps are passed in as explicit parameters;
* the external SDK call (`agent.run_sync` / `agent.run`) is an oracle
  function `ModelInfo → Except SdkError AgentOutput`;
* file reads/writes of the catalog cache are an explicit environment value.
-/

set_option maxRecDepth 4096

namespace Scaffold

/-- One candidate of the fallback chain: the dicts
`{'model': ..., 'provider': ...}` built by `AiHelper._build_fallback_chain`. -/
structure ModelInfo where
  model : String
  provider : String
deriving DecidableEq, Repr

/-- The `"provider/model"` identity string used as dedup key
(`key = f"{item['provider']}/{item['model']}"`). -/
def modelKey (m : ModelInfo) : String :=
  m.provider ++ "/" ++ m.model

/-- Python `c in s` on a string: membership of the character. -/
def containsChar (s : String) (c : Char) : Bool :=
  s.data.contains c

/-- Python `s.split('/', 1)[-1]`: everything after the first `'/'`,
or the whole string when no `'/'` occurs. -/
def afterFirstSlash (s : String) : String :=
  match s.splitOn "/" with
  | [] => s
  | [_] => s
  | _ :: rest => String.intercalate "/" rest

/-- `LLMModel` of `config_helper.py`: one entry of the system fallback chain. -/
structure LLMModel where
  model : String
  provider : String
deriving DecidableEq, Repr

/-- `Defaults` of `config_helper.py`. -/
structure Defaults where
  primary : LLMModel
  fallback_chain : List LLMModel
deriving DecidableEq, Repr

/-- `LimitConfig` of `config_helper.py` (string-keyed integer limits). -/
structure LimitConfig where
  per_model : List (String × Int)
  per_service : List (String × Int)
deriving DecidableEq, Repr

/-- `Config` of `config_helper.py`.  `mode` is the `strict`/`loose` flag. -/
structure Config where
  default_models : Defaults
  daily_limits : LimitConfig
  monthly_limits : LimitConfig
  model_mappings : List (String × String)
  file_capable_models : List String
  excluded_models : List String
  mode : String
deriving DecidableEq, Repr

/-- The parts of the `agent_config` dict read by `_build_fallback_chain`:
optional single fallback (model plus provider) and optional fallback chain. -/
structure AgentConfig where
  fallback_model : Option String
  fallback_provider : Option String
  fallback_chain : List LLMModel
deriving DecidableEq, Repr

/-- Candidate list of `_build_fallback_chain` before dedup, in source order:
primary, agent single fallback, agent chain, system fallback model
(`ConfigHelper.get_fallback_model`, i.e. `default_models.primary`), system
chain.  Name stripping (`split('/', 1)[-1]`) is applied exactly where the
source applies it. -/
def rawChain (primary_model primary_provider : String)
    (agent_config : Option AgentConfig) (cfg : Config) : List ModelInfo :=
  let primary_model_name :=
    if primary_provider ≠ "open_router" then afterFirstSlash primary_model
    else primary_model
  let base := [ModelInfo.mk primary_model_name primary_provider]
  let agentPart :=
    match agent_config with
    | none => []
    | some ac =>
      let single :=
        match ac.fallback_model, ac.fallback_provider with
        | some fm, some fp =>
          let fm' :=
            if containsChar fm '/' ∧ fp ≠ "open_router" then afterFirstSlash fm
            else fm
          [ModelInfo.mk fm' fp]
        | _, _ => []
      let chain := ac.fallback_chain.map (fun f =>
        let m :=
          if containsChar f.model '/' ∧ f.provider ≠ "open_router" then
            afterFirstSlash f.model
          else f.model
        ModelInfo.mk m f.provider)
      single ++ chain
  let sysPart :=
    ModelInfo.mk cfg.default_models.primary.model cfg.default_models.primary.provider ::
      cfg.default_models.fallback_chain.map (fun f => ModelInfo.mk f.model f.provider)
  base ++ agentPart ++ sysPart

/-- The dedup loop of `_build_fallback_chain` (`seen` set, first occurrence
kept, relative order preserved), as a structural recursion. -/
def dedupChain : List ModelInfo → List String → List ModelInfo
  | [], _ => []
  | x :: xs, seen =>
    if modelKey x ∈ seen then dedupChain xs seen
    else x :: dedupChain xs (modelKey x :: seen)

/-- `AiHelper._build_fallback_chain`. -/
def build_fallback_chain (primary_model primary_provider : String)
    (agent_config : Option AgentConfig) (cfg : Config) : List ModelInfo :=
  dedupChain (rawChain primary_model primary_provider agent_config cfg) []

/-- A concrete configuration used to instantiate theorems: system primary
`openai/gpt-4.1` and a one-element system fallback chain. -/
def cfgEx : Config :=
  Config.mk (Defaults.mk (LLMModel.mk "gpt-4.1" "openai") [LLMModel.mk "claude-3-haiku" "anthropic"])
    (LimitConfig.mk [] []) (LimitConfig.mk [] []) [] [] [] "strict"

/-- `cfgEx` with the `mode` flag flipped to `loose`; every other field equal. -/
def cfgExLoose : Config :=
  Config.mk (Defaults.mk (LLMModel.mk "gpt-4.1" "openai") [LLMModel.mk "claude-3-haiku" "anthropic"])
    (LimitConfig.mk [] []) (LimitConfig.mk [] []) [] [] [] "loose"

/-- Token counts of one SDK call (`pydantic_ai.usage.Usage` as consumed by
the source: each field may be `None`). -/
structure Usage where
  request_tokens : Option Int
  response_tokens : Option Int
  total_tokens : Option Int
  requests : Option Int
deriving DecidableEq, Repr

/-- `Usage()` with no counts set. -/
def defaultUsage : Usage := Usage.mk none none none none

/-- Python `x or d` on an optional integer: `None` and `0` are falsy. -/
def pyOrInt (o : Option Int) (d : Int) : Int :=
  match o with
  | none => d
  | some n => if n = 0 then d else n

/-- Python `x or d` on an optional string: `None` and `""` are falsy. -/
def pyOrStr (o : Option String) (d : String) : String :=
  match o with
  | none => d
  | some s => if s = "" then d else s

/-- Python truthiness of an optional string. -/
def pyTruthyStr (o : Option String) : Bool :=
  match o with
  | none => false
  | some s => s ≠ ""

/-- `LLMReport` of `py_models/base.py`.  Machine floats (`cost`) are exact
rationals; the `run_date`/`run_id` wall-clock stamps are a caller-supplied
string. -/
structure LLMReport where
  model_name : String
  run_id : String
  usage : Option Usage
  cost : ℚ
  fill_percentage : Int
  fallback_used : Bool
  attempted_models : List String
deriving DecidableEq, Repr

/-- `UsageItem` of `usage_tracker.py`: one daily aggregation bucket. -/
structure UsageItem where
  month : String
  day : String
  model : String
  service : String
  pydantic_model_name : String
  input_tokens : Int
  output_tokens : Int
  total_tokens : Int
  requests : Int
  cost : ℚ
deriving DecidableEq, Repr

/-- `ToolUsageItem` of `usage_tracker.py`. -/
structure ToolUsageItem where
  month : String
  day : String
  tool_name : String
  calls : Int
deriving DecidableEq, Repr

/-- `FillPercentageStats` of `usage_tracker.py` (running mean). -/
structure FillPercentageStats where
  average : ℚ
  count : ℕ
  sum_total : ℚ
deriving DecidableEq, Repr

/-- `FillPercentageStats()` default. -/
def emptyFillStats : FillPercentageStats := FillPercentageStats.mk 0 0 0

/-- `HelperUsage` of `usage_tracker.py`: the whole persisted ledger.  The
Python string-keyed dicts for the fill stats are association lists (keys are
unique in every state the tracker produces). -/
structure HelperUsage where
  usage_today : ℚ
  usage_this_month : ℚ
  daily_usage : List UsageItem
  daily_tool_usage : List ToolUsageItem
  fill_percentage_by_pydantic_model : List (String × FillPercentageStats)
  fill_percentage_by_llm_model : List (String × FillPercentageStats)
deriving DecidableEq, Repr

/-- `HelperUsage()` with all defaults: the empty ledger. -/
def emptyHelperUsage : HelperUsage := HelperUsage.mk 0 0 [] [] [] []

/-- One observation applied to a running-mean record, in source order:
`count += 1; sum_total += fill; average = sum_total / count`. -/
def updateStatsEntry (fill : ℚ) (s : FillPercentageStats) : FillPercentageStats :=
  let count := s.count + 1
  let sum_total := s.sum_total + fill
  FillPercentageStats.mk (sum_total / (count : ℚ)) count sum_total

/-- The per-dict part of `_update_fill_percentage_stats`: create the entry
with defaults when the key is absent (Python dicts append new keys at the
end), then apply the observation to the entry. -/
def updateStatsMap (name : String) (fill : ℚ) :
    List (String × FillPercentageStats) → List (String × FillPercentageStats)
  | [] => [(name, updateStatsEntry fill emptyFillStats)]
  | (k, s) :: rest =>
    if k = name then (k, updateStatsEntry fill s) :: rest
    else (k, s) :: updateStatsMap name fill rest

/-- Association-list read of a fill-stats dict. -/
def lookupStats (name : String) :
    List (String × FillPercentageStats) → Option FillPercentageStats
  | [] => none
  | (k, s) :: rest => if k = name then some s else lookupStats name rest

/-- `UsageTracker._update_fill_percentage_stats`: updates both running-mean
dicts (per pydantic model and per LLM model). -/
def update_fill_percentage_stats (pydantic_model_name llm_model_name : String)
    (fill : ℚ) (u : HelperUsage) : HelperUsage :=
  { u with
    fill_percentage_by_pydantic_model :=
      updateStatsMap pydantic_model_name fill u.fill_percentage_by_pydantic_model,
    fill_percentage_by_llm_model :=
      updateStatsMap llm_model_name fill u.fill_percentage_by_llm_model }

/-- The bucket-key test of the `add_usage` find loop:
`(day, model, service, pydantic_model_name)`. -/
def matchesKey (day model service pydantic_model_name : String) (item : UsageItem) : Bool :=
  item.day == day && item.model == model && item.service == service &&
    item.pydantic_model_name == pydantic_model_name

/-- The `(day, model, service, pydantic_model_name)` key of a bucket. -/
def itemKey (item : UsageItem) : String × String × String × String :=
  (item.day, item.model, item.service, item.pydantic_model_name)

/-- The daily-usage part of `add_usage`: mutate the first bucket whose key
matches (adding tokens, requests and cost), else append a fresh bucket. -/
def addToDaily (month day model service pydantic_model_name : String)
    (input_tokens output_tokens total_tokens requests : Int) (cost : ℚ) :
    List UsageItem → List UsageItem
  | [] => [UsageItem.mk month day model service pydantic_model_name
      input_tokens output_tokens total_tokens requests cost]
  | item :: rest =>
    if matchesKey day model service pydantic_model_name item then
      UsageItem.mk item.month item.day item.model item.service item.pydantic_model_name
        (item.input_tokens + input_tokens) (item.output_tokens + output_tokens)
        (item.total_tokens + total_tokens) (item.requests + requests)
        (item.cost + cost) :: rest
    else
      item :: addToDaily month day model service pydantic_model_name
        input_tokens output_tokens total_tokens requests cost rest

/-- The tool-counter part of `add_usage`: increment the first `(day, tool)`
bucket, else append one with `calls = 1`. -/
def addToolCall (month day tool_name : String) :
    List ToolUsageItem → List ToolUsageItem
  | [] => [ToolUsageItem.mk month day tool_name 1]
  | item :: rest =>
    if item.day == day && item.tool_name == tool_name then
      ToolUsageItem.mk item.month item.day item.tool_name (item.calls + 1) :: rest
    else item :: addToolCall month day tool_name rest

/-- `_calculate_usage_today`: total cost of today's buckets. -/
def calcUsageForDay (day : String) (items : List UsageItem) : ℚ :=
  ((items.filter (fun i => i.day == day)).map (fun i => i.cost)).sum

/-- `_calculate_usage_this_month`: total cost of this month's buckets. -/
def calcUsageForMonth (month : String) (items : List UsageItem) : ℚ :=
  ((items.filter (fun i => i.month == month)).map (fun i => i.cost)).sum

/-- `UsageTracker.add_usage`.  `now_day`/`now_month` stand for the
`datetime.now()` stamps; the final whole-file `_save()` is outside the
state modelled here. -/
def add_usage (now_day now_month : String) (usage_report : LLMReport)
    (model_name service : String) (pydantic_model_name : Option String)
    (tool_names_called : List String) (u : HelperUsage) : HelperUsage :=
  let actual_pydantic_model_name := pyOrStr pydantic_model_name "N/A"
  let llm_usage_obj := usage_report.usage.getD defaultUsage
  let input_tokens := pyOrInt llm_usage_obj.request_tokens 0
  let output_tokens := pyOrInt llm_usage_obj.response_tokens 0
  let total_tokens := pyOrInt llm_usage_obj.total_tokens 0
  let requests := pyOrInt llm_usage_obj.requests 1
  let cost := usage_report.cost
  let u :=
    if pyTruthyStr pydantic_model_name ∧ usage_report.fill_percentage ≥ 0 then
      update_fill_percentage_stats actual_pydantic_model_name model_name
        (usage_report.fill_percentage : ℚ) u
    else u
  let u :=
    { u with
      daily_usage := addToDaily now_month now_day model_name service
        actual_pydantic_model_name input_tokens output_tokens total_tokens requests cost
        u.daily_usage,
      daily_tool_usage := tool_names_called.foldl
        (fun acc n => addToolCall now_month now_day n acc) u.daily_tool_usage }
  { u with
    usage_today := calcUsageForDay now_day u.daily_usage,
    usage_this_month := calcUsageForMonth now_month u.daily_usage }

/-- The `pricing` dict of one catalog entry (keys may be absent; the string
prices are exact rationals). -/
structure Pricing where
  prompt : Option ℚ
  completion : Option ℚ
deriving DecidableEq, Repr

/-- One entry of the remote model catalog (`models.json` `data` array). -/
structure CatalogModel where
  id : String
  pricing : Pricing
  supported_parameters : List String
deriving DecidableEq, Repr

/-- Python `round(x, 10)` under exact arithmetic: round to ten decimal
places (float banker's rounding collapses to this away from exact ties). -/
def round10 (q : ℚ) : ℚ :=
  ((round (q * 10 ^ 10) : ℤ) : ℚ) / 10 ^ 10

/-- The pricing arithmetic of `get_cost_info` once the catalog entry is in
hand: per-token prompt and completion prices, each added only when present
and the token count is positive, then `round(..., 10)`.  (The source reads
`usage.request_tokens > 0` on counts it always sets; absent counts stand
for zero here.) -/
def costArithmetic (mi : CatalogModel) (usage : Usage) : ℚ :=
  let c1 :=
    match mi.pricing.prompt with
    | some p => if usage.request_tokens.getD 0 > 0 then p * ((usage.request_tokens.getD 0 : Int) : ℚ) else 0
    | none => 0
  let c2 :=
    match mi.pricing.completion with
    | some p => if usage.response_tokens.getD 0 > 0 then p * ((usage.response_tokens.getD 0 : Int) : ℚ) else 0
    | none => 0
  round10 (c1 + c2)

/-- `get_model_info` given the models list and alias mappings it read:
resolve the alias, then first exact id match, else `None`. -/
def get_model_info (models : List CatalogModel) (mappings : List (String × String))
    (model : String) : Option CatalogModel :=
  let model' :=
    match mappings.lookup model with
    | some canonical => canonical
    | none => model
  (models.filter (fun x => x.id == model')).head?

/-- `get_cost_info` given the models list and mappings: a model absent from
the catalog costs `0`. -/
def get_cost_info (models : List CatalogModel) (mappings : List (String × String))
    (model : String) (usage : Usage) : ℚ :=
  match get_model_info models mappings model with
  | none => 0
  | some mi => costArithmetic mi usage

/-- The validated structured output of one successful SDK call:
`output.__dict__.values()` as optional field values, the token usage, and
the tool calls extracted from the message log. -/
structure AgentOutput where
  fields : List (Option String)
  usage : Usage
  tool_names : List String
deriving DecidableEq, Repr

/-- `int((filled_fields / total_fields) * 100)` under exact arithmetic:
`int()` truncates toward zero, which on this non-negative ratio is the
floor. -/
def fillPercentage (filled_fields total_fields : ℕ) : ℤ :=
  ⌊((filled_fields : ℚ) / (total_fields : ℚ)) * 100⌋

/-- `AiHelper._post_process`: count non-null output fields, build the
report (cost via `get_cost_info`), and record it in the ledger.  The call
site passes `(report, provider, model_name, pydantic_model_name, tools)`
into `add_usage(usage_report, model_name, service, ...)`, so `provider`
lands in `model_name` and `model_name` in `service`, exactly as in the
source. -/
def post_process (models : List CatalogModel) (mappings : List (String × String))
    (now_day now_month run_id : String) (agent_output : AgentOutput)
    (model_name provider pydantic_model_name : String) (u : HelperUsage) :
    LLMReport × HelperUsage :=
  let filled_fields := (agent_output.fields.filter (fun f => f ≠ none)).length
  let total_fields := agent_output.fields.length
  let report := LLMReport.mk model_name run_id (some agent_output.usage)
    (get_cost_info models mappings model_name agent_output.usage)
    (fillPercentage filled_fields total_fields) false []
  let u' := add_usage now_day now_month report provider model_name
    (some pydantic_model_name) agent_output.tool_names u
  (report, u')

/-- What `_execute_with_fallback` produces: either a validated output plus
report, or the single aggregate failure raised after the chain is
exhausted, carrying the attempted identities and the last underlying
error (the content of the `"All fallback models failed..."` message). -/
inductive ExecOutcome where
  | success (output : AgentOutput) (report : LLMReport)
  | exhausted (attempted_models : List String) (last_error : Option String)
deriving DecidableEq, Repr

/-- `AiHelper._execute_with_fallback` (the async variant is line-for-line
identical up to logging).  `attempt` is the external SDK call
(`agent.run_sync`); an `Except.error` is the exception a candidate raises.
The loop appends the candidate identity to `attempted_models` before the
call, retries on failure, and on success stamps the report with the
attempt list and `fallback_used = (attempts > 1)`. -/
def execute_with_fallback (models : List CatalogModel) (mappings : List (String × String))
    (now_day now_month run_id : String) (attempt : ModelInfo → Except String AgentOutput)
    (pydantic_model_name : String) :
    List ModelInfo → List String → Option String → HelperUsage → ExecOutcome × HelperUsage
  | [], attempted_models, last_error, u => (ExecOutcome.exhausted attempted_models last_error, u)
  | m :: rest, attempted_models, _, u =>
    let full_model_name := m.provider ++ "/" ++ m.model
    let attempted' := attempted_models ++ [full_model_name]
    match attempt m with
    | Except.error e =>
      execute_with_fallback models mappings now_day now_month run_id attempt
        pydantic_model_name rest attempted' (some e) u
    | Except.ok agent_output =>
      let pr := post_process models mappings now_day now_month run_id agent_output
        full_model_name m.provider pydantic_model_name u
      let report := { pr.1 with
        attempted_models := attempted',
        fallback_used := decide (attempted'.length > 1) }
      (ExecOutcome.success agent_output report, pr.2)

/-- The observable outcome of `AiHelper.get_result`: the `ValueError`
raised on a model name without a provider separator, or the executor's
outcome. -/
inductive GetResultOutcome where
  | callerError (msg : String)
  | executed (outcome : ExecOutcome)
deriving DecidableEq, Repr

/-- The message of the missing-separator `ValueError`. -/
def missingSeparatorMsg (llm_model_name : String) : String :=
  "Model name " ++ llm_model_name ++ " must be in the format provider/model_name."

/-- `AiHelper.get_result` (and `get_result_async`, identical up to the
await): reject a model name without `/` before anything else; otherwise
build the fallback chain and run the executor.  The ledger state is
threaded through; the catalog (`models`, `mappings`) is read-only. -/
def get_result (models : List CatalogModel) (mappings : List (String × String))
    (now_day now_month run_id : String) (attempt : ModelInfo → Except String AgentOutput)
    (pydantic_model_name llm_model_name provider : String)
    (agent_config : Option AgentConfig) (cfg : Config) (u : HelperUsage) :
    GetResultOutcome × HelperUsage :=
  if containsChar llm_model_name '/' = false then
    (GetResultOutcome.callerError (missingSeparatorMsg llm_model_name), u)
  else
    let fallback_models := build_fallback_chain llm_model_name provider agent_config cfg
    let r := execute_with_fallback models mappings now_day now_month run_id attempt
      pydantic_model_name fallback_models [] none u
    (GetResultOutcome.executed r.1, r.2)

/-- The on-disk `models.json` cache: fetch timestamp plus data array. -/
structure CatalogFile where
  timestamp : Int
  data : List CatalogModel
deriving DecidableEq, Repr

/-- The environment `LLMInfoProvider` interacts with: the `models.json`
cache file (absent or present), the outcome a remote catalog fetch would
have, the alias mapping file, and the current time. -/
structure InfoEnv where
  models_file : Option CatalogFile
  fetched : Except String (List CatalogModel)
  mappings_file : Option (List (String × String))
  now : Int
deriving Repr

/-- The in-memory `_cost_info` dict (only `model_data` matters here). -/
structure CostInfo where
  model_data : List CatalogModel
deriving DecidableEq, Repr

/-- The fetch branch of `_init_cost_info`: on success filter to tool-capable
models and write the cache file; on failure fall back to EMPTY in-memory
data and write nothing. -/
def fetchCostInfo (env : InfoEnv) : CostInfo × InfoEnv :=
  match env.fetched with
  | Except.ok data =>
    let model_data := data.filter (fun m => "tools" ∈ m.supported_parameters)
    (CostInfo.mk model_data, { env with models_file := some (CatalogFile.mk env.now model_data) })
  | Except.error _ => (CostInfo.mk [], env)

/-- `LLMInfoProvider._init_cost_info`: use the cache when younger than
86400 seconds, else fetch. -/
def init_cost_info (env : InfoEnv) : CostInfo × InfoEnv :=
  match env.models_file with
  | some f =>
    if env.now - f.timestamp < 86400 then (CostInfo.mk f.data, env)
    else fetchCostInfo env
  | none => fetchCostInfo env

/-- `LLMInfoProvider._get_models_data`: when the cache file is absent, run
`_init_cost_info`, then re-open the cache file; opening a still-absent
file raises `FileNotFoundError`. -/
def get_models_data (env : InfoEnv) : Except String (List CatalogModel × InfoEnv) :=
  let env' :=
    match env.models_file with
    | none => (init_cost_info env).2
    | some _ => env
  match env'.models_file with
  | none => Except.error "FileNotFoundError: models.json"
  | some f => Except.ok (f.data, env')

/-- `LLMInfoProvider.get_models`: the ids of all catalog models. -/
def get_models (env : InfoEnv) : Except String (List String) :=
  match get_models_data env with
  | Except.error e => Except.error e
  | Except.ok (models, _) => Except.ok (models.map (fun m => m.id))

/-- `LLMInfoProvider.get_model_info` through the file layer. -/
def get_model_info_env (env : InfoEnv) (model : String) :
    Except String (Option CatalogModel) :=
  match get_models_data env with
  | Except.error e => Except.error e
  | Except.ok (models, _) =>
    Except.ok (get_model_info models (env.mappings_file.getD []) model)

/-- `LLMInfoProvider.get_cost_info` through the file layer. -/
def get_cost_info_env (env : InfoEnv) (model : String) (usage : Usage) :
    Except String ℚ :=
  match get_model_info_env env model with
  | Except.error e => Except.error e
  | Except.ok none => Except.ok 0
  | Except.ok (some mi) => Except.ok (costArithmetic mi usage)

/-- The environment of spec scenario C: no cache file on disk and a remote
fetch that fails with a network error. -/
def envFetchFail : InfoEnv :=
  InfoEnv.mk none (Except.error "ConnectionError") none 1700000000

/-- Statement abbreviation: the bucket two same-key `add_usage` calls are
expected to leave — every numeric field the pairwise sum of the values the
tracker extracts from the two reports. -/
def sumBucket (month day model service pydantic_model_name : String)
    (r1 r2 : LLMReport) : UsageItem :=
  UsageItem.mk month day model service pydantic_model_name
    (pyOrInt (r1.usage.getD defaultUsage).request_tokens 0 +
      pyOrInt (r2.usage.getD defaultUsage).request_tokens 0)
    (pyOrInt (r1.usage.getD defaultUsage).response_tokens 0 +
      pyOrInt (r2.usage.getD defaultUsage).response_tokens 0)
    (pyOrInt (r1.usage.getD defaultUsage).total_tokens 0 +
      pyOrInt (r2.usage.getD defaultUsage).total_tokens 0)
    (pyOrInt (r1.usage.getD defaultUsage).requests 1 +
      pyOrInt (r2.usage.getD defaultUsage).requests 1)
    (r1.cost + r2.cost)

/-- Statement abbreviation: total recorded requests across the buckets of
one `(day, model, service, schema)` key. -/
def requestsForKey (day model service pydantic_model_name : String)
    (l : List UsageItem) : Int :=
  ((l.filter (matchesKey day model service pydantic_model_name)).map
    (fun i => i.requests)).sum

/-- The mutable state of one `AiHelper` instance as a caller observes it:
the Usage Ledger (`self.usage_tracker`) and the Model Catalog environment
(`self.info_provider` together with its `models.json` cache file). -/
structure AiHelperState where
  usage_tracker : HelperUsage
  info_provider : InfoEnv
deriving Repr

/-- `LLMInfoProvider.get_cost_info` with its catalog state threaded
through: `get_model_info` calls `_get_models_data`, which may run
`_init_cost_info` (possibly rewriting the cache file) and then re-opens
the cache, so the read can both change the environment and raise. -/
def get_cost_info_st (env : InfoEnv) (model : String) (usage : Usage) :
    Except String (ℚ × InfoEnv) :=
  match get_models_data env with
  | Except.error e => Except.error e
  | Except.ok (models, env') =>
    Except.ok (get_cost_info models (env.mappings_file.getD []) model usage, env')

/-- `AiHelper._post_process` over the full helper state.  The cost lookup
runs while the report is being constructed, before `add_usage`; if it
raises, the exception leaves `_post_process` with the ledger untouched. -/
def post_process_st (now_day now_month run_id : String) (agent_output : AgentOutput)
    (model_name provider pydantic_model_name : String) (st : AiHelperState) :
    Except String (LLMReport × AiHelperState) :=
  let filled_fields := (agent_output.fields.filter (fun f => f ≠ none)).length
  let total_fields := agent_output.fields.length
  match get_cost_info_st st.info_provider model_name agent_output.usage with
  | Except.error e => Except.error e
  | Except.ok (cost, env') =>
    let report := LLMReport.mk model_name run_id (some agent_output.usage) cost
      (fillPercentage filled_fields total_fields) false []
    let u' := add_usage now_day now_month report provider model_name
      (some pydantic_model_name) agent_output.tool_names st.usage_tracker
    Except.ok (report, AiHelperState.mk u' env')

/-- `AiHelper._execute_with_fallback` over the full helper state: the same
loop as `execute_with_fallback`, with the catalog environment threaded.
An exception escaping `_post_process` (a failed cache read) is caught by
the outer `except` like any SDK error: it becomes this candidate's
failure and the loop continues with the state unchanged. -/
def execute_with_fallback_st (now_day now_month run_id : String)
    (attempt : ModelInfo → Except String AgentOutput) (pydantic_model_name : String) :
    List ModelInfo → List String → Option String → AiHelperState → ExecOutcome × AiHelperState
  | [], attempted_models, last_error, st => (ExecOutcome.exhausted attempted_models last_error, st)
  | m :: rest, attempted_models, _, st =>
    let full_model_name := m.provider ++ "/" ++ m.model
    let attempted' := attempted_models ++ [full_model_name]
    match attempt m with
    | Except.error e =>
      execute_with_fallback_st now_day now_month run_id attempt pydantic_model_name
        rest attempted' (some e) st
    | Except.ok agent_output =>
      match post_process_st now_day now_month run_id agent_output full_model_name
          m.provider pydantic_model_name st with
      | Except.error e =>
        execute_with_fallback_st now_day now_month run_id attempt pydantic_model_name
          rest attempted' (some e) st
      | Except.ok (report, st') =>
        (ExecOutcome.success agent_output
          { report with
            attempted_models := attempted',
            fallback_used := decide (attempted'.length > 1) }, st')

/-- `AiHelper.get_result` over the full helper state (ledger plus catalog
environment): the missing-separator `ValueError` is the first statement of
the source function, before the prompt is prepared, the chain is built or
any candidate is attempted. -/
def get_result_st (now_day now_month run_id : String)
    (attempt : ModelInfo → Except String AgentOutput)
    (pydantic_model_name llm_model_name provider : String)
    (agent_config : Option AgentConfig) (cfg : Config) (st : AiHelperState) :
    GetResultOutcome × AiHelperState :=
  if containsChar llm_model_name '/' = false then
    (GetResultOutcome.callerError (missingSeparatorMsg llm_model_name), st)
  else
    let fallback_models := build_fallback_chain llm_model_name provider agent_config cfg
    let r := execute_with_fallback_st now_day now_month run_id attempt
      pydantic_model_name fallback_models [] none st
    (GetResultOutcome.executed r.1, r.2)

/-- The candidate list before dedup always starts with the primary entry. -/
theorem rawChain_ne_nil (primary_model primary_provider : String)
    (agent_config : Option AgentConfig) (cfg : Config) :
    rawChain primary_model primary_provider agent_config cfg ≠ [] := by
  simp [rawChain]

/-- The dedup loop only keeps elements of its input, in order. -/
theorem dedupChain_sublist (l : List ModelInfo) (seen : List String) :
    (dedupChain l seen).Sublist l := by
  induction l generalizing seen with
  | nil => simp [dedupChain]
  | cons x xs ih =>
    by_cases h : modelKey x ∈ seen
    · simp only [dedupChain, if_pos h]
      exact (ih seen).trans (List.sublist_cons_self x xs)
    · simp only [dedupChain, if_neg h]
      exact (ih (modelKey x :: seen)).cons₂ x

/-- Keys of the dedup output are pairwise distinct and disjoint from `seen`. -/
theorem dedupChain_nodup (l : List ModelInfo) (seen : List String) :
    ((dedupChain l seen).map modelKey).Nodup ∧
      ∀ k ∈ (dedupChain l seen).map modelKey, k ∉ seen := by
  induction l generalizing seen with
  | nil => simp [dedupChain]
  | cons x xs ih =>
    by_cases h : modelKey x ∈ seen
    · simpa only [dedupChain, if_pos h] using ih seen
    · simp only [dedupChain, if_neg h, List.map_cons, List.nodup_cons]
      obtain ⟨hnd, hsub⟩ := ih (modelKey x :: seen)
      refine ⟨⟨fun hmem => ?_, hnd⟩, ?_⟩
      · exact (hsub _ hmem) (List.mem_cons_self _ _)
      · intro k hk
        rcases List.mem_cons.mp hk with rfl | hk'
        · exact h
        · exact fun hks => (hsub _ hk') (List.mem_cons_of_mem _ hks)

/-- Every key of the input either was already seen or survives the dedup. -/
theorem dedupChain_covers (l : List ModelInfo) (seen : List String) :
    ∀ x ∈ l, modelKey x ∈ seen ∨ modelKey x ∈ (dedupChain l seen).map modelKey := by
  induction l generalizing seen with
  | nil => simp
  | cons y ys ih =>
    intro x hx
    by_cases h : modelKey y ∈ seen
    · simp only [dedupChain, if_pos h]
      rcases List.mem_cons.mp hx with rfl | hx'
      · exact Or.inl h
      · exact ih seen x hx'
    · simp only [dedupChain, if_neg h, List.map_cons]
      rcases List.mem_cons.mp hx with rfl | hx'
      · exact Or.inr (List.mem_cons_self _ _)
      · rcases ih (modelKey y :: seen) x hx' with hs | hd
        · rcases List.mem_cons.mp hs with he | hs'
          · exact Or.inr (he ▸ List.mem_cons_self _ _)
          · exact Or.inl hs'
        · exact Or.inr (List.mem_cons_of_mem _ hd)

/-- Each survivor of the dedup is the FIRST element of the input carrying its
key: the loop keeps first occurrences at their original relative position. -/
theorem dedupChain_first_occurrence (l : List ModelInfo) (seen : List String) :
    ∀ m ∈ dedupChain l seen,
      modelKey m ∉ seen ∧
        l.find? (fun x => modelKey x == modelKey m) = some m := by
  induction l generalizing seen with
  | nil => simp [dedupChain]
  | cons y ys ih =>
    intro m hm
    by_cases h : modelKey y ∈ seen
    · simp only [dedupChain, if_pos h] at hm
      obtain ⟨hns, hfind⟩ := ih seen m hm
      have hne : (modelKey y == modelKey m) = false := by
        simp only [beq_eq_false_iff_ne, ne_eq]
        intro he
        exact hns (he ▸ h)
      refine ⟨hns, ?_⟩
      rw [List.find?_cons_of_neg _ (by simp [hne]), hfind]
    · simp only [dedupChain, if_neg h] at hm
      rcases List.mem_cons.mp hm with rfl | hm'
      · exact ⟨h, by rw [List.find?_cons_of_pos _ (by simp)]⟩
      · obtain ⟨hns, hfind⟩ := ih (modelKey y :: seen) m hm'
        have hne : modelKey y ≠ modelKey m := by
          intro he
          exact hns (he ▸ List.mem_cons_self _ _)
        refine ⟨fun hs => hns (List.mem_cons_of_mem _ hs), ?_⟩
        rw [List.find?_cons_of_neg _ (by simp [hne]), hfind]

/-- Claim C4: the chain built by `_build_fallback_chain` is the subsequence of the
concatenation order (primary, override single fallback, override chain,
system fallback model, system chain) that keeps exactly the first occurrence
of each `"provider/model"` identity: it is a sublist of the raw concatenation
(relative order preserved), its identities are pairwise distinct, every
identity of the concatenation appears, each kept entry is the first element
of the concatenation bearing its identity, and the chain is never empty. -/
theorem build_fallback_chain_dedup (primary_model primary_provider : String)
    (agent_config : Option AgentConfig) (cfg : Config) :
    (build_fallback_chain primary_model primary_provider agent_config cfg).Sublist
        (rawChain primary_model primary_provider agent_config cfg) ∧
      ((build_fallback_chain primary_model primary_provider agent_config cfg).map modelKey).Nodup ∧
      (∀ x ∈ rawChain primary_model primary_provider agent_config cfg,
        modelKey x ∈
          (build_fallback_chain primary_model primary_provider agent_config cfg).map modelKey) ∧
      (∀ m ∈ build_fallback_chain primary_model primary_provider agent_config cfg,
        (rawChain primary_model primary_provider agent_config cfg).find?
          (fun x => modelKey x == modelKey m) = some m) ∧
      build_fallback_chain primary_model primary_provider agent_config cfg ≠ [] := by
  unfold build_fallback_chain
  refine ⟨dedupChain_sublist _ _, (dedupChain_nodup _ _).1, fun x hx => ?_, fun m hm => (dedupChain_first_occurrence _ _ m hm).2, fun hnil => ?_⟩
  · rcases dedupChain_covers _ [] x hx with hs | hd
    · exact absurd hs (List.not_mem_nil _)
    · exact hd
  · rcases List.exists_mem_of_ne_nil _ (rawChain_ne_nil primary_model primary_provider agent_config cfg) with ⟨x, hx⟩
    rcases dedupChain_covers _ [] x hx with hs | hd
    · exact absurd hs (List.not_mem_nil _)
    · rw [hnil] at hd
      exact absurd hd (List.not_mem_nil _)

/-- Claim C4 witness: the characterisation instantiated at a concrete call where
the primary (`openai/gpt-4o` with provider `openai`) also appears in the
agent override chain and the system chain. -/
theorem build_fallback_chain_dedup_witness :
    (build_fallback_chain "openai/gpt-4o" "openai"
        (some (AgentConfig.mk (some "gpt-4o") (some "openai") [LLMModel.mk "gpt-4.1" "openai"]))
        cfgEx).Sublist
        (rawChain "openai/gpt-4o" "openai"
          (some (AgentConfig.mk (some "gpt-4o") (some "openai") [LLMModel.mk "gpt-4.1" "openai"]))
          cfgEx) ∧
      ((build_fallback_chain "openai/gpt-4o" "openai"
          (some (AgentConfig.mk (some "gpt-4o") (some "openai") [LLMModel.mk "gpt-4.1" "openai"]))
          cfgEx).map modelKey).Nodup ∧
      (∀ x ∈ rawChain "openai/gpt-4o" "openai"
          (some (AgentConfig.mk (some "gpt-4o") (some "openai") [LLMModel.mk "gpt-4.1" "openai"]))
          cfgEx,
        modelKey x ∈
          (build_fallback_chain "openai/gpt-4o" "openai"
            (some (AgentConfig.mk (some "gpt-4o") (some "openai") [LLMModel.mk "gpt-4.1" "openai"]))
            cfgEx).map modelKey) ∧
      (∀ m ∈ build_fallback_chain "openai/gpt-4o" "openai"
          (some (AgentConfig.mk (some "gpt-4o") (some "openai") [LLMModel.mk "gpt-4.1" "openai"]))
          cfgEx,
        (rawChain "openai/gpt-4o" "openai"
          (some (AgentConfig.mk (some "gpt-4o") (some "openai") [LLMModel.mk "gpt-4.1" "openai"]))
          cfgEx).find? (fun x => modelKey x == modelKey m) = some m) ∧
      build_fallback_chain "openai/gpt-4o" "openai"
        (some (AgentConfig.mk (some "gpt-4o") (some "openai") [LLMModel.mk "gpt-4.1" "openai"]))
        cfgEx ≠ [] :=
  build_fallback_chain_dedup "openai/gpt-4o" "openai"
    (some (AgentConfig.mk (some "gpt-4o") (some "openai") [LLMModel.mk "gpt-4.1" "openai"])) cfgEx

/-- Exact value of the source's `int((filled / total) * 100)`: the natural
division `(100 * filled) / total` (truncation, not rounding to nearest). -/
theorem fillPercentage_eq_natDiv (f t : ℕ) :
    fillPercentage f t = (((100 * f) / t : ℕ) : ℤ) := by
  unfold fillPercentage
  rw [show ((f : ℚ) / (t : ℚ)) * 100 = ((100 * f : ℕ) : ℚ) / ((t : ℕ) : ℚ) by push_cast; ring]
  exact Rat.floor_natCast_div_natCast (100 * f) t

/-- Claim C3 counterexample: a validated output with 3 fields of which 2 are
non-null gets `fill_percentage = 66` from `_post_process`, while
`round(100*2/3) = 67`: the code truncates the ratio, it does not round it
to the nearest percent. -/
theorem fill_percentage_truncation_counterexample :
    (post_process [] [] "2026-10-12" "2026-10" "r"
        (AgentOutput.mk [some "a", some "b", none] defaultUsage []) "openai/gpt-4o" "openai"
        "S" emptyHelperUsage).1.fill_percentage = 66 ∧
      round ((100 * ((2 : ℕ) : ℚ)) / ((3 : ℕ) : ℚ)) = 67 := by
  constructor
  · show fillPercentage 2 3 = 66
    rw [fillPercentage_eq_natDiv]
    decide
  · rw [round_eq,
      show (100 * ((2 : ℕ) : ℚ)) / ((3 : ℕ) : ℚ) + 1 / 2 = ((403 : ℕ) : ℚ) / ((6 : ℕ) : ℚ) by
        norm_num]
    rw [Rat.floor_natCast_div_natCast]
    decide

/-- Claim C3 as amended: for a validated output with `T > 0` total fields of
which `F` are non-null, the report's `fill_percentage` equals
`(100*F)/T` truncated toward zero (floor, not round-to-nearest), and it
always lies in `[0, 100]`. -/
theorem post_process_fill_percentage_truncated (models : List CatalogModel)
    (mappings : List (String × String)) (now_day now_month run_id : String)
    (agent_output : AgentOutput) (model_name provider pydantic_model_name : String)
    (u : HelperUsage) (ht : 0 < agent_output.fields.length) :
    (post_process models mappings now_day now_month run_id agent_output model_name provider
        pydantic_model_name u).1.fill_percentage
      = (((100 * (agent_output.fields.filter (fun f => f ≠ none)).length) /
          agent_output.fields.length : ℕ) : ℤ) ∧
    0 ≤ (post_process models mappings now_day now_month run_id agent_output model_name provider
        pydantic_model_name u).1.fill_percentage ∧
    (post_process models mappings now_day now_month run_id agent_output model_name provider
        pydantic_model_name u).1.fill_percentage ≤ 100 := by
  have hfp : (post_process models mappings now_day now_month run_id agent_output model_name
      provider pydantic_model_name u).1.fill_percentage
      = fillPercentage ((agent_output.fields.filter (fun f => f ≠ none)).length)
          agent_output.fields.length := rfl
  rw [hfp, fillPercentage_eq_natDiv]
  refine ⟨rfl, by positivity, ?_⟩
  have h1 : (100 * (agent_output.fields.filter (fun f => f ≠ none)).length) /
      agent_output.fields.length ≤ 100 := by
    calc (100 * (agent_output.fields.filter (fun f => f ≠ none)).length) /
        agent_output.fields.length
        ≤ (100 * agent_output.fields.length) / agent_output.fields.length :=
          Nat.div_le_div_right (Nat.mul_le_mul_left 100 (List.length_filter_le _ _))
      _ = 100 := by rw [Nat.mul_comm]; exact Nat.mul_div_cancel_left 100 ht
  exact_mod_cast h1

/-- Claim C3 witness: the amended bound instantiated at a 2-field output with one
non-null field. -/
theorem post_process_fill_percentage_truncated_witness :
    0 < (AgentOutput.mk [some "a", none] defaultUsage []).fields.length ∧
      ((post_process [] [] "2026-10-12" "2026-10" "r"
          (AgentOutput.mk [some "a", none] defaultUsage []) "openai/gpt-4o" "openai"
          "S" emptyHelperUsage).1.fill_percentage
        = (((100 * ((AgentOutput.mk [some "a", none] defaultUsage
            []).fields.filter (fun f => f ≠ none)).length) /
            (AgentOutput.mk [some "a", none] defaultUsage []).fields.length : ℕ) : ℤ) ∧
      0 ≤ (post_process [] [] "2026-10-12" "2026-10" "r"
          (AgentOutput.mk [some "a", none] defaultUsage []) "openai/gpt-4o" "openai"
          "S" emptyHelperUsage).1.fill_percentage ∧
      (post_process [] [] "2026-10-12" "2026-10" "r"
          (AgentOutput.mk [some "a", none] defaultUsage []) "openai/gpt-4o" "openai"
          "S" emptyHelperUsage).1.fill_percentage ≤ 100) :=
  ⟨by decide,
    post_process_fill_percentage_truncated [] [] "2026-10-12" "2026-10" "r"
      (AgentOutput.mk [some "a", none] defaultUsage []) "openai/gpt-4o" "openai"
      "S" emptyHelperUsage (by decide)⟩

/-- Claim C5 (code bug): with no `models.json` cache on disk and a failing remote fetch,
`_init_cost_info` does fall back to empty in-memory model data (the
intended degraded mode), but `get_models()` and `get_cost_info()` re-open
the cache file that the failed fetch never wrote: a `FileNotFoundError`
escapes instead of the empty list / zero cost the degraded mode promises. -/
theorem catalog_fetch_failure_not_degraded :
    get_models envFetchFail = Except.error "FileNotFoundError: models.json" ∧
      get_cost_info_env envFetchFail "openai/gpt-4o" defaultUsage
        = Except.error "FileNotFoundError: models.json" ∧
      (init_cost_info envFetchFail).1.model_data = [] := ⟨rfl, rfl, rfl⟩

/-- Helper: running the executor on a chain whose members all fail appends
every identity to the accumulator, records the last error, and leaves the
ledger untouched. -/
theorem exec_all_fail_general (models : List CatalogModel) (mappings : List (String × String))
    (now_day now_month run_id : String) (attempt : ModelInfo → Except String AgentOutput)
    (pydantic_model_name : String) (errFn : ModelInfo → String) (chain : List ModelInfo)
    (hfail : ∀ m ∈ chain, attempt m = Except.error (errFn m)) :
    ∀ attempted le u,
      execute_with_fallback models mappings now_day now_month run_id attempt
          pydantic_model_name chain attempted le u
        = (ExecOutcome.exhausted (attempted ++ chain.map modelKey)
            ((chain.getLast?).map errFn <|> le), u) := by
  induction chain with
  | nil => intro attempted le u; simp [execute_with_fallback]
  | cons m rest ih =>
    intro attempted le u
    have hm : attempt m = Except.error (errFn m) := hfail m (List.mem_cons_self _ _)
    have hrest : ∀ x ∈ rest, attempt x = Except.error (errFn x) :=
      fun x hx => hfail x (List.mem_cons_of_mem _ hx)
    simp only [execute_with_fallback, hm]
    rw [ih hrest (attempted ++ [m.provider ++ "/" ++ m.model]) (some (errFn m)) u]
    cases rest with
    | nil => simp [modelKey]
    | cons r rs =>
      have hlast : ∃ x, (r :: rs).getLast? = some x := by
        cases h : (r :: rs).getLast? with
        | none => exact absurd h (by simp)
        | some x => exact ⟨x, rfl⟩
      obtain ⟨x, hx⟩ := hlast
      simp [modelKey, List.getLast?_cons_cons, hx]

/-- Claim C1: when every one of the N candidates fails, the executor makes
exactly N attempts — the attempted list is the whole chain's identity list,
of length N — then produces the single aggregate `exhausted` failure
carrying all attempted identities and the last underlying error; no result
is returned and the ledger is unchanged. -/
theorem execute_with_fallback_exhaustion (models : List CatalogModel)
    (mappings : List (String × String)) (now_day now_month run_id : String)
    (attempt : ModelInfo → Except String AgentOutput) (pydantic_model_name : String)
    (errFn : ModelInfo → String) (chain : List ModelInfo) (u : HelperUsage)
    (hfail : ∀ m ∈ chain, attempt m = Except.error (errFn m)) :
    execute_with_fallback models mappings now_day now_month run_id attempt
        pydantic_model_name chain [] none u
      = (ExecOutcome.exhausted (chain.map modelKey) ((chain.getLast?).map errFn), u) ∧
    (chain.map modelKey).length = chain.length := by
  refine ⟨?_, List.length_map _ _⟩
  rw [exec_all_fail_general models mappings now_day now_month run_id attempt
    pydantic_model_name errFn chain hfail [] none u]
  simp

/-- Helper: when the candidates before `mSucc` fail and `mSucc` succeeds,
the executor's result is independent of everything after `mSucc`. -/
theorem exec_success_general (models : List CatalogModel) (mappings : List (String × String))
    (now_day now_month run_id : String) (attempt : ModelInfo → Except String AgentOutput)
    (pydantic_model_name : String) (errFn : ModelInfo → String) (pre : List ModelInfo)
    (mSucc : ModelInfo) (out : AgentOutput)
    (hfail : ∀ m ∈ pre, attempt m = Except.error (errFn m))
    (hok : attempt mSucc = Except.ok out) :
    ∀ post attempted le u,
      execute_with_fallback models mappings now_day now_month run_id attempt
          pydantic_model_name (pre ++ mSucc :: post) attempted le u
        = (ExecOutcome.success out
            { (post_process models mappings now_day now_month run_id out (modelKey mSucc)
                mSucc.provider pydantic_model_name u).1 with
              attempted_models := attempted ++ (pre ++ [mSucc]).map modelKey,
              fallback_used :=
                decide ((attempted ++ (pre ++ [mSucc]).map modelKey).length > 1) },
          (post_process models mappings now_day now_month run_id out (modelKey mSucc)
            mSucc.provider pydantic_model_name u).2) := by
  induction pre with
  | nil =>
    intro post attempted le u
    simp only [List.nil_append, execute_with_fallback, hok]
    simp [modelKey]
  | cons p pre' ih =>
    intro post attempted le u
    have hp : attempt p = Except.error (errFn p) := hfail p (List.mem_cons_self _ _)
    have hpre' : ∀ m ∈ pre', attempt m = Except.error (errFn m) :=
      fun m hm => hfail m (List.mem_cons_of_mem _ hm)
    simp only [List.cons_append, execute_with_fallback, hp, List.append_eq]
    rw [ih hpre' post (attempted ++ [p.provider ++ "/" ++ p.model]) (some (errFn p)) u]
    simp [modelKey]

/-- Claim C2: if candidate k succeeds after k-1 failures, no candidate
after k is attempted (the run equals the run on the chain truncated at k),
the report's `attempted_models` is the first k identities — length exactly
k — and `fallback_used = (k > 1)`. -/
theorem execute_with_fallback_short_circuit (models : List CatalogModel)
    (mappings : List (String × String)) (now_day now_month run_id : String)
    (attempt : ModelInfo → Except String AgentOutput) (pydantic_model_name : String)
    (errFn : ModelInfo → String) (pre post : List ModelInfo) (mSucc : ModelInfo)
    (out : AgentOutput) (u : HelperUsage)
    (hfail : ∀ m ∈ pre, attempt m = Except.error (errFn m))
    (hok : attempt mSucc = Except.ok out) :
    execute_with_fallback models mappings now_day now_month run_id attempt
        pydantic_model_name (pre ++ mSucc :: post) [] none u
      = execute_with_fallback models mappings now_day now_month run_id attempt
        pydantic_model_name (pre ++ [mSucc]) [] none u ∧
    (execute_with_fallback models mappings now_day now_month run_id attempt
        pydantic_model_name (pre ++ mSucc :: post) [] none u).1
      = ExecOutcome.success out
          { (post_process models mappings now_day now_month run_id out (modelKey mSucc)
              mSucc.provider pydantic_model_name u).1 with
            attempted_models := (pre ++ [mSucc]).map modelKey,
            fallback_used := decide (pre.length + 1 > 1) } ∧
    ((pre ++ [mSucc]).map modelKey).length = pre.length + 1 := by
  have h1 := exec_success_general models mappings now_day now_month run_id attempt
    pydantic_model_name errFn pre mSucc out hfail hok post [] none u
  have h2 := exec_success_general models mappings now_day now_month run_id attempt
    pydantic_model_name errFn pre mSucc out hfail hok [] [] none u
  refine ⟨h1.trans h2.symm, ?_, by simp⟩
  rw [h1]
  simp

/-- Claim C6: a model identifier without the `/` separator makes
`get_result` raise the caller `ValueError` before anything else: for EVERY
catalog, mappings and SDK oracle the call returns the caller error with the
ledger untouched; over the full helper state (Usage Ledger AND Model
Catalog environment, via `get_result_st`) the whole state comes back
exactly as it went in, for every oracle, so no network attempt, no
fallback-chain iteration and no ledger or catalog mutation can have taken
place; and the outcome is never an executor outcome, so the error is not
counted as a fallback failure. -/
theorem get_result_missing_separator (llm_model_name : String)
    (h : containsChar llm_model_name '/' = false) :
    (∀ (models : List CatalogModel) (mappings : List (String × String))
        (now_day now_month run_id : String) (attempt : ModelInfo → Except String AgentOutput)
        (pydantic_model_name provider : String) (agent_config : Option AgentConfig)
        (cfg : Config) (u : HelperUsage),
      get_result models mappings now_day now_month run_id attempt pydantic_model_name
          llm_model_name provider agent_config cfg u
        = (GetResultOutcome.callerError (missingSeparatorMsg llm_model_name), u)) ∧
    (∀ (now_day now_month run_id : String) (attempt : ModelInfo → Except String AgentOutput)
        (pydantic_model_name provider : String) (agent_config : Option AgentConfig)
        (cfg : Config) (st : AiHelperState),
      get_result_st now_day now_month run_id attempt pydantic_model_name
          llm_model_name provider agent_config cfg st
        = (GetResultOutcome.callerError (missingSeparatorMsg llm_model_name), st)) ∧
    (∀ (now_day now_month run_id : String) (attempt : ModelInfo → Except String AgentOutput)
        (pydantic_model_name provider : String) (agent_config : Option AgentConfig)
        (cfg : Config) (st : AiHelperState) (o : ExecOutcome),
      (get_result_st now_day now_month run_id attempt pydantic_model_name
          llm_model_name provider agent_config cfg st).1 ≠ GetResultOutcome.executed o) := by
  refine ⟨?_, ?_, ?_⟩
  · intro models mappings now_day now_month run_id attempt pydantic_model_name provider
      agent_config cfg u
    simp [get_result, h]
  · intro now_day now_month run_id attempt pydantic_model_name provider agent_config cfg st
    simp [get_result_st, h]
  · intro now_day now_month run_id attempt pydantic_model_name provider agent_config cfg st o
    simp [get_result_st, h]

/-- Claim C6 witness: the primary `gpt-4o` (no separator) rejected before
any attempt, with the full helper state (empty ledger plus a concrete
catalog environment) returned untouched. -/
theorem get_result_missing_separator_witness :
    containsChar "gpt-4o" '/' = false ∧
      get_result [] [] "2026-10-12" "2026-10" "r" (fun _ => Except.error "boom") "S"
          "gpt-4o" "open_router" none cfgEx emptyHelperUsage
        = (GetResultOutcome.callerError (missingSeparatorMsg "gpt-4o"), emptyHelperUsage) ∧
      get_result_st "2026-10-12" "2026-10" "r" (fun _ => Except.error "boom") "S"
          "gpt-4o" "open_router" none cfgEx
          (AiHelperState.mk emptyHelperUsage (InfoEnv.mk none (Except.error "down") none 0))
        = (GetResultOutcome.callerError (missingSeparatorMsg "gpt-4o"),
            AiHelperState.mk emptyHelperUsage (InfoEnv.mk none (Except.error "down") none 0)) ∧
      (∀ o : ExecOutcome,
        (get_result_st "2026-10-12" "2026-10" "r" (fun _ => Except.error "boom") "S"
            "gpt-4o" "open_router" none cfgEx
            (AiHelperState.mk emptyHelperUsage
              (InfoEnv.mk none (Except.error "down") none 0))).1
          ≠ GetResultOutcome.executed o) :=
  ⟨by decide,
    (get_result_missing_separator "gpt-4o" (by decide)).1 [] [] "2026-10-12" "2026-10" "r"
      (fun _ => Except.error "boom") "S" "open_router" none cfgEx emptyHelperUsage,
    (get_result_missing_separator "gpt-4o" (by decide)).2.1 "2026-10-12" "2026-10" "r"
      (fun _ => Except.error "boom") "S" "open_router" none cfgEx
      (AiHelperState.mk emptyHelperUsage (InfoEnv.mk none (Except.error "down") none 0)),
    fun o =>
      (get_result_missing_separator "gpt-4o" (by decide)).2.2 "2026-10-12" "2026-10" "r"
        (fun _ => Except.error "boom") "S" "open_router" none cfgEx
        (AiHelperState.mk emptyHelperUsage (InfoEnv.mk none (Except.error "down") none 0)) o⟩

/-- Claim C9: two configurations that differ only in the `mode` flag give
the identical fallback chain and identical `get_result` behaviour for every
prompt, oracle and ledger: the Executor never reads `mode`. -/
theorem mode_flag_unread (c₁ c₂ : Config)
    (h1 : c₁.default_models = c₂.default_models)
    (h2 : c₁.daily_limits = c₂.daily_limits)
    (h3 : c₁.monthly_limits = c₂.monthly_limits)
    (h4 : c₁.model_mappings = c₂.model_mappings)
    (h5 : c₁.file_capable_models = c₂.file_capable_models)
    (h6 : c₁.excluded_models = c₂.excluded_models) :
    (∀ pm pp ac, build_fallback_chain pm pp ac c₁ = build_fallback_chain pm pp ac c₂) ∧
    (∀ models mappings now_day now_month run_id attempt pydantic_model_name nm prov ac u,
      get_result models mappings now_day now_month run_id attempt pydantic_model_name
          nm prov ac c₁ u
        = get_result models mappings now_day now_month run_id attempt pydantic_model_name
          nm prov ac c₂ u) := by
  have hraw : ∀ pm pp ac, rawChain pm pp ac c₁ = rawChain pm pp ac c₂ := by
    intro pm pp ac
    simp only [rawChain, h1]
  have hchain : ∀ pm pp ac, build_fallback_chain pm pp ac c₁ = build_fallback_chain pm pp ac c₂ := by
    intro pm pp ac
    simp only [build_fallback_chain, hraw pm pp ac]
  refine ⟨hchain, ?_⟩
  intro models mappings now_day now_month run_id attempt pydantic_model_name nm prov ac u
  simp only [get_result, hchain nm prov ac]

/-- Helper: the find-loop predicate holds exactly on the
`(day, model, service, schema)` key. -/
theorem matchesKey_iff (day model service pname : String) (i : UsageItem) :
    matchesKey day model service pname i = true ↔
      itemKey i = (day, model, service, pname) := by
  simp [matchesKey, itemKey, Prod.ext_iff, Bool.and_eq_true, beq_iff_eq]
  tauto

/-- Helper: the `daily_usage` component `add_usage` produces, written via
`addToDaily` (the fill-stats and tool branches do not touch it). -/
theorem add_usage_daily (now_day now_month : String) (r : LLMReport)
    (model_name service : String) (pn : Option String) (tn : List String) (u : HelperUsage) :
    (add_usage now_day now_month r model_name service pn tn u).daily_usage
      = addToDaily now_month now_day model_name service (pyOrStr pn "N/A")
          (pyOrInt (r.usage.getD defaultUsage).request_tokens 0)
          (pyOrInt (r.usage.getD defaultUsage).response_tokens 0)
          (pyOrInt (r.usage.getD defaultUsage).total_tokens 0)
          (pyOrInt (r.usage.getD defaultUsage).requests 1)
          r.cost u.daily_usage := by
  unfold add_usage
  split <;> rfl

/-- Helper: with no matching bucket, `addToDaily` appends a fresh one. -/
theorem addToDaily_not_mem (month day model service pname : String)
    (a b c d : Int) (e : ℚ) (l : List UsageItem)
    (h : ∀ i ∈ l, matchesKey day model service pname i = false) :
    addToDaily month day model service pname a b c d e l
      = l ++ [UsageItem.mk month day model service pname a b c d e] := by
  induction l with
  | nil => rfl
  | cons i rest ih =>
    have hi : matchesKey day model service pname i = false := h i (List.mem_cons_self _ _)
    simp only [addToDaily, hi, Bool.false_eq_true, if_false, List.cons_append, List.cons.injEq,
      true_and]
    exact ih (fun j hj => h j (List.mem_cons_of_mem _ hj))

/-- Helper: buckets before the first match are passed over unchanged. -/
theorem addToDaily_append_left (month day model service pname : String)
    (a b c d : Int) (e : ℚ) (l₁ l₂ : List UsageItem)
    (h : ∀ i ∈ l₁, matchesKey day model service pname i = false) :
    addToDaily month day model service pname a b c d e (l₁ ++ l₂)
      = l₁ ++ addToDaily month day model service pname a b c d e l₂ := by
  induction l₁ with
  | nil => rfl
  | cons i rest ih =>
    have hi : matchesKey day model service pname i = false := h i (List.mem_cons_self _ _)
    simp only [List.cons_append, addToDaily, hi, Bool.false_eq_true, if_false,
      List.cons.injEq, true_and]
    exact ih (fun j hj => h j (List.mem_cons_of_mem _ hj))

/-- Helper: `addToDaily` introduces no key other than the target key. -/
theorem addToDaily_keys_subset (month day model service pname : String)
    (a b c d : Int) (e : ℚ) (l : List UsageItem) :
    ∀ k ∈ (addToDaily month day model service pname a b c d e l).map itemKey,
      k ∈ l.map itemKey ∨ k = (day, model, service, pname) := by
  induction l with
  | nil =>
    intro k hk
    simp [addToDaily, itemKey] at hk
    exact Or.inr hk
  | cons i rest ih =>
    intro k hk
    by_cases hi : matchesKey day model service pname i = true
    · simp only [addToDaily, hi, if_true, List.map_cons] at hk
      rcases List.mem_cons.mp hk with rfl | hk'
      · exact Or.inl (by simp [itemKey])
      · exact Or.inl (List.mem_cons_of_mem _ hk')
    · simp only [addToDaily, hi, if_false, List.map_cons] at hk
      rcases List.mem_cons.mp hk with rfl | hk'
      · exact Or.inl (List.mem_cons_self _ _)
      · rcases ih k hk' with h1 | h2
        · exact Or.inl (List.mem_cons_of_mem _ h1)
        · exact Or.inr h2

/-- Helper: `addToDaily` preserves key uniqueness of the bucket list. -/
theorem addToDaily_nodup (month day model service pname : String)
    (a b c d : Int) (e : ℚ) (l : List UsageItem)
    (h : (l.map itemKey).Nodup) :
    ((addToDaily month day model service pname a b c d e l).map itemKey).Nodup := by
  induction l with
  | nil => simp [addToDaily]
  | cons i rest ih =>
    simp only [List.map_cons, List.nodup_cons] at h
    by_cases hi : matchesKey day model service pname i = true
    · simp only [addToDaily, hi, if_true, List.map_cons]
      have hkeep : itemKey (UsageItem.mk i.month i.day i.model i.service i.pydantic_model_name
          (i.input_tokens + a) (i.output_tokens + b) (i.total_tokens + c) (i.requests + d)
          (i.cost + e)) = itemKey i := rfl
      rw [hkeep]
      exact List.nodup_cons.mpr h
    · simp only [addToDaily, hi, if_false, List.map_cons]
      refine List.nodup_cons.mpr ⟨?_, ih h.2⟩
      intro hmem
      rcases addToDaily_keys_subset month day model service pname a b c d e rest _ hmem with
        h1 | h2
      · exact h.1 h1
      · exact hi ((matchesKey_iff day model service pname i).mpr h2)

/-- Helper: one `addToDaily` adds exactly its request count to the
target key's total, whether it merges or appends. -/
theorem addToDaily_requestsForKey (month day model service pname : String)
    (a b c d : Int) (e : ℚ) (l : List UsageItem) :
    requestsForKey day model service pname (addToDaily month day model service pname a b c d e l)
      = requestsForKey day model service pname l + d := by
  induction l with
  | nil => simp [addToDaily, requestsForKey, matchesKey]
  | cons i rest ih =>
    by_cases hi : matchesKey day model service pname i = true
    · have hkeep : matchesKey day model service pname (UsageItem.mk i.month i.day i.model
          i.service i.pydantic_model_name (i.input_tokens + a) (i.output_tokens + b)
          (i.total_tokens + c) (i.requests + d) (i.cost + e)) = true := by
        rw [matchesKey_iff] at hi ⊢
        exact hi
      simp only [addToDaily, hi, if_true, requestsForKey, List.filter_cons, hkeep,
        List.map_cons, List.sum_cons]
      ring
    · simp only [addToDaily, hi, if_false, requestsForKey, List.filter_cons,
        Bool.false_eq_true]
      simp only [requestsForKey] at ih
      simp [hi, ih]

/-- Claim C7 counterexample: over a ledger that already holds a bucket for
the `(day, model, service, schema)` key with 5 recorded requests, two
`add_usage` calls whose reports each carry 1 request leave exactly one
bucket for the key, but its request count is 7 (prior 5 plus the two
calls), not the pairwise sum 2 of the two reports' values: the original
claim's quantification over ANY ledger state fails on states where the
key already has a bucket. -/
theorem add_usage_same_key_merges_counterexample :
    ((add_usage "2026-10-12" "2026-10"
        (LLMReport.mk "m" "r2" (some (Usage.mk (some 5) (some 6) (some 11) (some 1))) 1 80
          false [])
        "m" "s" (some "S") []
        (add_usage "2026-10-12" "2026-10"
          (LLMReport.mk "m" "r1" (some (Usage.mk (some 10) (some 20) (some 30) (some 1))) 1 50
            false [])
          "m" "s" (some "S") []
          (HelperUsage.mk 0 0
            [UsageItem.mk "2026-10" "2026-10-12" "m" "s" "S" 100 200 300 5 1]
            [] [] []))).daily_usage.filter
        (matchesKey "2026-10-12" "m" "s" (pyOrStr (some "S") "N/A"))).map (fun i => i.requests)
      = [7] ∧
    (sumBucket "2026-10" "2026-10-12" "m" "s" (pyOrStr (some "S") "N/A")
        (LLMReport.mk "m" "r1" (some (Usage.mk (some 10) (some 20) (some 30) (some 1))) 1 50
          false [])
        (LLMReport.mk "m" "r2" (some (Usage.mk (some 5) (some 6) (some 11) (some 1))) 1 80
          false [])).requests = 2 ∧
    (7 : Int) ≠ 2 := by
  decide

/-- Claim C7 as amended: starting from a ledger with unique keys and no
bucket yet for the `(day, model, service, schema)` key, two `add_usage`
calls with that key leave exactly one bucket for it — the filter on the
key is a singleton — whose token, request and cost fields are the
pairwise sums of the values extracted from the two reports (with a
pre-existing bucket the single bucket instead carries prior plus sums,
per the counterexample); and `add_usage` preserves key uniqueness from
any state. -/
theorem add_usage_same_key_merges
    (now_day now_month : String) (r1 r2 : LLMReport) (model_name service : String)
    (pn : Option String) (tn1 tn2 : List String) (u : HelperUsage)
    (hfresh : ∀ i ∈ u.daily_usage,
      matchesKey now_day model_name service (pyOrStr pn "N/A") i = false)
    (hnodup : (u.daily_usage.map itemKey).Nodup) :
    (add_usage now_day now_month r2 model_name service pn tn2
        (add_usage now_day now_month r1 model_name service pn tn1 u)).daily_usage.filter
        (matchesKey now_day model_name service (pyOrStr pn "N/A"))
      = [sumBucket now_month now_day model_name service (pyOrStr pn "N/A") r1 r2] ∧
    ((add_usage now_day now_month r2 model_name service pn tn2
        (add_usage now_day now_month r1 model_name service pn tn1 u)).daily_usage.map
        itemKey).Nodup ∧
    (∀ (r : LLMReport) (mn sv : String) (pn' : Option String) (tn : List String)
        (w : HelperUsage), (w.daily_usage.map itemKey).Nodup →
      ((add_usage now_day now_month r mn sv pn' tn w).daily_usage.map itemKey).Nodup) := by
  have hmatch1 : matchesKey now_day model_name service (pyOrStr pn "N/A")
      (UsageItem.mk now_month now_day model_name service (pyOrStr pn "N/A")
        (pyOrInt ((r1.usage.getD defaultUsage)).request_tokens 0)
        (pyOrInt ((r1.usage.getD defaultUsage)).response_tokens 0)
        (pyOrInt ((r1.usage.getD defaultUsage)).total_tokens 0)
        (pyOrInt ((r1.usage.getD defaultUsage)).requests 1) r1.cost) = true := by
    rw [matchesKey_iff]
    rfl
  have hd1 : (add_usage now_day now_month r1 model_name service pn tn1 u).daily_usage
      = u.daily_usage ++ [UsageItem.mk now_month now_day model_name service (pyOrStr pn "N/A")
          (pyOrInt ((r1.usage.getD defaultUsage)).request_tokens 0)
          (pyOrInt ((r1.usage.getD defaultUsage)).response_tokens 0)
          (pyOrInt ((r1.usage.getD defaultUsage)).total_tokens 0)
          (pyOrInt ((r1.usage.getD defaultUsage)).requests 1) r1.cost] := by
    rw [add_usage_daily]
    exact addToDaily_not_mem _ _ _ _ _ _ _ _ _ _ _ hfresh
  have hd2 : (add_usage now_day now_month r2 model_name service pn tn2
        (add_usage now_day now_month r1 model_name service pn tn1 u)).daily_usage
      = u.daily_usage ++ [sumBucket now_month now_day model_name service (pyOrStr pn "N/A") r1 r2] := by
    rw [add_usage_daily, hd1, addToDaily_append_left _ _ _ _ _ _ _ _ _ _ _ _ hfresh]
    simp only [addToDaily, hmatch1, if_true]
    rfl
  have hkeysum : itemKey (sumBucket now_month now_day model_name service (pyOrStr pn "N/A") r1 r2)
      = (now_day, model_name, service, pyOrStr pn "N/A") := rfl
  have htargetnot : (now_day, model_name, service, pyOrStr pn "N/A") ∉ u.daily_usage.map itemKey := by
    intro hmem
    rcases List.mem_map.mp hmem with ⟨i, hi, hk⟩
    exact absurd ((matchesKey_iff _ _ _ _ i).mpr hk) (by simp [hfresh i hi])
  refine ⟨?_, ?_, ?_⟩
  · rw [hd2, List.filter_append]
    have hnil : u.daily_usage.filter (matchesKey now_day model_name service (pyOrStr pn "N/A")) = [] := by
      rw [List.filter_eq_nil_iff]
      intro i hi
      simp [hfresh i hi]
    rw [hnil]
    simp only [List.nil_append, List.filter_cons]
    have : matchesKey now_day model_name service (pyOrStr pn "N/A")
        (sumBucket now_month now_day model_name service (pyOrStr pn "N/A") r1 r2) = true := by
      rw [matchesKey_iff, hkeysum]
    simp [this]
  · rw [hd2, List.map_append]
    rw [List.nodup_append]
    refine ⟨hnodup, by simp, ?_⟩
    intro k hk
    simp only [List.map_cons, List.map_nil, hkeysum, List.mem_singleton]
    intro hkeq
    exact htargetnot (hkeq ▸ hk)
  · intro r mn sv pn' tn w hw
    rw [add_usage_daily]
    exact addToDaily_nodup _ _ _ _ _ _ _ _ _ _ _ hw

/-- Claim C10: a report whose usage has `requests` equal to `None` or `0`
still increases the recorded request total of its bucket key by exactly 1
(`requests or 1` defaults the count), so every recorded call contributes at
least one request. -/
theorem add_usage_zero_requests_counts_one
    (now_day now_month : String) (r : LLMReport) (model_name service : String)
    (pn : Option String) (tn : List String) (u : HelperUsage)
    (hreq : (r.usage.getD defaultUsage).requests = none ∨
      (r.usage.getD defaultUsage).requests = some 0) :
    requestsForKey now_day model_name service (pyOrStr pn "N/A")
        ((add_usage now_day now_month r model_name service pn tn u).daily_usage)
      = requestsForKey now_day model_name service (pyOrStr pn "N/A") u.daily_usage + 1 := by
  rw [add_usage_daily, addToDaily_requestsForKey]
  have h1 : pyOrInt (r.usage.getD defaultUsage).requests 1 = 1 := by
    rcases hreq with h | h <;> simp [pyOrInt, h]
  rw [h1]

/-- Helper: updating an absent stats key creates it from defaults. -/
theorem lookup_updateStatsMap_none (name : String) (fill : ℚ)
    (m : List (String × FillPercentageStats)) (h : lookupStats name m = none) :
    lookupStats name (updateStatsMap name fill m)
      = some (updateStatsEntry fill emptyFillStats) := by
  induction m with
  | nil => simp [updateStatsMap, lookupStats]
  | cons e rest ih =>
    obtain ⟨k, s⟩ := e
    by_cases hk : k = name
    · subst hk
      simp [lookupStats] at h
    · simp only [lookupStats, hk, if_false] at h
      simp only [updateStatsMap, hk, if_false, lookupStats]
      exact ih h

/-- Helper: updating a present stats key applies one observation. -/
theorem lookup_updateStatsMap_some (name : String) (fill : ℚ)
    (m : List (String × FillPercentageStats)) (s : FillPercentageStats)
    (h : lookupStats name m = some s) :
    lookupStats name (updateStatsMap name fill m)
      = some (updateStatsEntry fill s) := by
  induction m with
  | nil => simp [lookupStats] at h
  | cons e rest ih =>
    obtain ⟨k, s'⟩ := e
    by_cases hk : k = name
    · subst hk
      simp only [lookupStats, if_true] at h
      simp only [updateStatsMap, if_true, lookupStats]
      exact congrArg (fun x => some (updateStatsEntry fill x)) (Option.some.inj h)
    · simp only [lookupStats, hk, if_false] at h
      simp only [updateStatsMap, hk, if_false, lookupStats]
      exact ih h

/-- Helper: one observation unfolded. -/
theorem updateStatsEntry_eq (fill : ℚ) (s : FillPercentageStats) :
    updateStatsEntry fill s
      = FillPercentageStats.mk ((s.sum_total + fill) / ((s.count + 1 : ℕ) : ℚ))
          (s.count + 1) (s.sum_total + fill) := rfl

/-- Helper: folding observations over an existing entry accumulates
count and sum and recomputes the mean from them. -/
theorem foldl_updateStatsMap_entry (name : String) (ps : List ℚ) (hne : ps ≠ []) :
    ∀ (m : List (String × FillPercentageStats)) (avg t : ℚ) (c : ℕ),
      lookupStats name m = some (FillPercentageStats.mk avg c t) →
      lookupStats name (ps.foldl (fun acc p => updateStatsMap name p acc) m)
        = some (FillPercentageStats.mk ((t + ps.sum) / ((c + ps.length : ℕ) : ℚ))
            (c + ps.length) (t + ps.sum)) := by
  induction ps with
  | nil => exact absurd rfl hne
  | cons p ps' ih =>
    intro m avg t c h
    have hstep : lookupStats name (updateStatsMap name p m)
        = some (FillPercentageStats.mk ((t + p) / ((c + 1 : ℕ) : ℚ)) (c + 1) (t + p)) := by
      rw [lookup_updateStatsMap_some name p m _ h, updateStatsEntry_eq]
    by_cases hps' : ps' = []
    · subst hps'
      simp only [List.foldl_cons, List.foldl_nil]
      rw [hstep]
      congr 1
      simp
    · simp only [List.foldl_cons]
      rw [ih hps' (updateStatsMap name p m) _ _ _ hstep]
      have hsum : t + p + List.sum ps' = t + List.sum (p :: ps') := by
        simp [List.sum_cons]
        ring
      have hlen : c + 1 + ps'.length = c + (p :: ps').length := by
        simp [List.length_cons]
        ring
      congr 1
      rw [hsum, hlen]

/-- Helper: folding n ≥ 1 observations from an absent key yields count n,
sum of the observations, and mean sum/n. -/
theorem foldl_updateStatsMap_fresh (name : String) (ps : List ℚ) (hne : ps ≠ [])
    (m : List (String × FillPercentageStats)) (h : lookupStats name m = none) :
    lookupStats name (ps.foldl (fun acc p => updateStatsMap name p acc) m)
      = some (FillPercentageStats.mk (ps.sum / ((ps.length : ℕ) : ℚ)) ps.length ps.sum) := by
  cases ps with
  | nil => exact absurd rfl hne
  | cons p ps' =>
    have hstep : lookupStats name (updateStatsMap name p m)
        = some (FillPercentageStats.mk ((0 + p) / ((0 + 1 : ℕ) : ℚ)) (0 + 1) (0 + p)) := by
      rw [lookup_updateStatsMap_none name p m h, updateStatsEntry_eq]
      rfl
    by_cases hps' : ps' = []
    · subst hps'
      simp only [List.foldl_cons, List.foldl_nil]
      rw [hstep]
      congr 1 <;> simp
    · simp only [List.foldl_cons]
      rw [foldl_updateStatsMap_entry name ps' hps' (updateStatsMap name p m) _ _ _ hstep]
      have hsum : (0 : ℚ) + p + ps'.sum = (p :: ps').sum := by
        simp [List.sum_cons]
      have hlen : 0 + 1 + ps'.length = (p :: ps').length := by
        simp [List.length_cons]
        omega
      rw [hsum, hlen]

/-- Claim C8: starting from a ledger with no stats entry for a schema,
after n ≥ 1 recorded observations p₁..pₙ for that schema the entry has
`count = n`, `sum_total = Σpᵢ` and `average = (Σpᵢ)/n` exactly — an exact
running mean, not exponential decay. -/
theorem fill_percentage_running_mean (pname lname : String) (ps : List ℚ) (u : HelperUsage)
    (hnone : lookupStats pname u.fill_percentage_by_pydantic_model = none) (hne : ps ≠ []) :
    lookupStats pname
        ((ps.foldl (fun acc p => update_fill_percentage_stats pname lname p acc)
          u).fill_percentage_by_pydantic_model)
      = some (FillPercentageStats.mk (ps.sum / ((ps.length : ℕ) : ℚ)) ps.length ps.sum) := by
  have hcomp : ∀ (qs : List ℚ) (w : HelperUsage),
      ((qs.foldl (fun acc p => update_fill_percentage_stats pname lname p acc)
          w).fill_percentage_by_pydantic_model)
        = qs.foldl (fun m p => updateStatsMap pname p m) w.fill_percentage_by_pydantic_model := by
    intro qs
    induction qs with
    | nil => intro w; rfl
    | cons q qs' ih =>
      intro w
      simp only [List.foldl_cons]
      rw [ih (update_fill_percentage_stats pname lname q w)]
      rfl
  rw [hcomp]
  exact foldl_updateStatsMap_fresh pname ps hne _ hnone

/-- Claim C8 witness: two observations 50 and 100 give count 2 and
average 75. -/
theorem fill_percentage_running_mean_witness :
    lookupStats "S" emptyHelperUsage.fill_percentage_by_pydantic_model = none ∧
      ([(50 : ℚ), 100] ≠ ([] : List ℚ)) ∧
      lookupStats "S"
          (([(50 : ℚ), 100].foldl (fun acc p => update_fill_percentage_stats "S" "m" p acc)
            emptyHelperUsage).fill_percentage_by_pydantic_model)
        = some (FillPercentageStats.mk
            ([(50 : ℚ), 100].sum / ((([(50 : ℚ), 100].length : ℕ)) : ℚ))
            [(50 : ℚ), 100].length [(50 : ℚ), 100].sum) :=
  ⟨rfl, by simp,
    fill_percentage_running_mean "S" "m" [50, 100] emptyHelperUsage rfl (by simp)⟩

/-- Claim C1 witness: a two-candidate chain in which both candidates
fail. -/
theorem execute_with_fallback_exhaustion_witness :
    (∀ m ∈ [ModelInfo.mk "gpt-4o" "openai", ModelInfo.mk "claude-3-haiku" "anthropic"],
        (fun (_ : ModelInfo) => (Except.error "boom" : Except String AgentOutput)) m
          = Except.error ((fun (_ : ModelInfo) => "boom") m)) ∧
      (execute_with_fallback [] [] "2026-10-12" "2026-10" "r"
          (fun (_ : ModelInfo) => (Except.error "boom" : Except String AgentOutput)) "S"
          [ModelInfo.mk "gpt-4o" "openai", ModelInfo.mk "claude-3-haiku" "anthropic"] [] none
          emptyHelperUsage
        = (ExecOutcome.exhausted
            ([ModelInfo.mk "gpt-4o" "openai",
              ModelInfo.mk "claude-3-haiku" "anthropic"].map modelKey)
            (([ModelInfo.mk "gpt-4o" "openai",
              ModelInfo.mk "claude-3-haiku" "anthropic"].getLast?).map (fun _ => "boom")),
          emptyHelperUsage) ∧
      ([ModelInfo.mk "gpt-4o" "openai",
        ModelInfo.mk "claude-3-haiku" "anthropic"].map modelKey).length
        = [ModelInfo.mk "gpt-4o" "openai", ModelInfo.mk "claude-3-haiku" "anthropic"].length) :=
  ⟨fun _ _ => rfl,
    execute_with_fallback_exhaustion [] [] "2026-10-12" "2026-10" "r"
      (fun _ => Except.error "boom") "S" (fun _ => "boom")
      [ModelInfo.mk "gpt-4o" "openai", ModelInfo.mk "claude-3-haiku" "anthropic"]
      emptyHelperUsage (fun _ _ => rfl)⟩

/-- Claim C2 witness: first candidate fails, second succeeds, third never
attempted. -/
theorem execute_with_fallback_short_circuit_witness :
    (∀ m ∈ [ModelInfo.mk "gpt-4o" "openai"],
        (fun (x : ModelInfo) =>
          if x.model == "claude-3-haiku" then
            Except.ok (AgentOutput.mk [some "a"] defaultUsage [])
          else (Except.error "boom" : Except String AgentOutput)) m
          = Except.error ((fun (_ : ModelInfo) => "boom") m)) ∧
      ((fun (x : ModelInfo) =>
          if x.model == "claude-3-haiku" then
            Except.ok (AgentOutput.mk [some "a"] defaultUsage [])
          else (Except.error "boom" : Except String AgentOutput))
          (ModelInfo.mk "claude-3-haiku" "anthropic")
        = Except.ok (AgentOutput.mk [some "a"] defaultUsage [])) ∧
      (execute_with_fallback [] [] "2026-10-12" "2026-10" "r"
          (fun (x : ModelInfo) =>
            if x.model == "claude-3-haiku" then
              Except.ok (AgentOutput.mk [some "a"] defaultUsage [])
            else (Except.error "boom" : Except String AgentOutput)) "S"
          ([ModelInfo.mk "gpt-4o" "openai"] ++ ModelInfo.mk "claude-3-haiku" "anthropic" ::
            [ModelInfo.mk "gpt-4.1" "openai"]) [] none emptyHelperUsage
        = execute_with_fallback [] [] "2026-10-12" "2026-10" "r"
          (fun (x : ModelInfo) =>
            if x.model == "claude-3-haiku" then
              Except.ok (AgentOutput.mk [some "a"] defaultUsage [])
            else (Except.error "boom" : Except String AgentOutput)) "S"
          ([ModelInfo.mk "gpt-4o" "openai"] ++ [ModelInfo.mk "claude-3-haiku" "anthropic"]) []
          none emptyHelperUsage) :=
  ⟨fun m hm => by
      rcases List.mem_singleton.mp hm with rfl
      rfl,
    rfl,
    (execute_with_fallback_short_circuit [] [] "2026-10-12" "2026-10" "r"
      (fun (x : ModelInfo) =>
        if x.model == "claude-3-haiku" then
          Except.ok (AgentOutput.mk [some "a"] defaultUsage [])
        else (Except.error "boom" : Except String AgentOutput)) "S" (fun _ => "boom")
      [ModelInfo.mk "gpt-4o" "openai"] [ModelInfo.mk "gpt-4.1" "openai"]
      (ModelInfo.mk "claude-3-haiku" "anthropic")
      (AgentOutput.mk [some "a"] defaultUsage []) emptyHelperUsage
      (fun m hm => by
        rcases List.mem_singleton.mp hm with rfl
        rfl)
      rfl).1⟩


/-- Claim C7 witness: two reports recorded into the empty ledger under the
same `(day, model, service, schema)` key. -/
theorem add_usage_same_key_merges_witness :
    (∀ i ∈ emptyHelperUsage.daily_usage,
        matchesKey "2026-10-12" "openai/gpt-4o" "openai" (pyOrStr (some "S") "N/A") i
          = false) ∧
      ((emptyHelperUsage.daily_usage.map itemKey).Nodup) ∧
      ((add_usage "2026-10-12" "2026-10"
          (LLMReport.mk "openai/gpt-4o" "r2"
            (some (Usage.mk (some 5) (some 6) (some 11) (some 2))) 2 80 false [])
          "openai/gpt-4o" "openai" (some "S") []
          (add_usage "2026-10-12" "2026-10"
            (LLMReport.mk "openai/gpt-4o" "r1"
              (some (Usage.mk (some 10) (some 20) (some 30) (some 1))) 1 50 false [])
            "openai/gpt-4o" "openai" (some "S") [] emptyHelperUsage)).daily_usage.filter
          (matchesKey "2026-10-12" "openai/gpt-4o" "openai" (pyOrStr (some "S") "N/A"))
        = [sumBucket "2026-10" "2026-10-12" "openai/gpt-4o" "openai" (pyOrStr (some "S") "N/A")
            (LLMReport.mk "openai/gpt-4o" "r1"
              (some (Usage.mk (some 10) (some 20) (some 30) (some 1))) 1 50 false [])
            (LLMReport.mk "openai/gpt-4o" "r2"
              (some (Usage.mk (some 5) (some 6) (some 11) (some 2))) 2 80 false [])] ∧
      ((add_usage "2026-10-12" "2026-10"
          (LLMReport.mk "openai/gpt-4o" "r2"
            (some (Usage.mk (some 5) (some 6) (some 11) (some 2))) 2 80 false [])
          "openai/gpt-4o" "openai" (some "S") []
          (add_usage "2026-10-12" "2026-10"
            (LLMReport.mk "openai/gpt-4o" "r1"
              (some (Usage.mk (some 10) (some 20) (some 30) (some 1))) 1 50 false [])
            "openai/gpt-4o" "openai" (some "S") [] emptyHelperUsage)).daily_usage.map
          itemKey).Nodup ∧
      (∀ (r : LLMReport) (mn sv : String) (pn' : Option String) (tn : List String)
          (w : HelperUsage), (w.daily_usage.map itemKey).Nodup →
        ((add_usage "2026-10-12" "2026-10" r mn sv pn' tn w).daily_usage.map
          itemKey).Nodup)) :=
  ⟨fun i hi => absurd hi (List.not_mem_nil i), List.nodup_nil,
    add_usage_same_key_merges "2026-10-12" "2026-10"
      (LLMReport.mk "openai/gpt-4o" "r1"
        (some (Usage.mk (some 10) (some 20) (some 30) (some 1))) 1 50 false [])
      (LLMReport.mk "openai/gpt-4o" "r2"
        (some (Usage.mk (some 5) (some 6) (some 11) (some 2))) 2 80 false [])
      "openai/gpt-4o" "openai" (some "S") [] [] emptyHelperUsage
      (fun i hi => absurd hi (List.not_mem_nil i)) List.nodup_nil⟩

/-- Claim C9 witness: `cfgEx` and `cfgExLoose` differ only in `mode` and
are indistinguishable to the chain builder and executor. -/
theorem mode_flag_unread_witness :
    cfgEx.default_models = cfgExLoose.default_models ∧
      cfgEx.daily_limits = cfgExLoose.daily_limits ∧
      cfgEx.monthly_limits = cfgExLoose.monthly_limits ∧
      cfgEx.model_mappings = cfgExLoose.model_mappings ∧
      cfgEx.file_capable_models = cfgExLoose.file_capable_models ∧
      cfgEx.excluded_models = cfgExLoose.excluded_models ∧
      ((∀ pm pp ac, build_fallback_chain pm pp ac cfgEx = build_fallback_chain pm pp ac cfgExLoose) ∧
        (∀ models mappings now_day now_month run_id attempt pydantic_model_name nm prov ac u,
          get_result models mappings now_day now_month run_id attempt pydantic_model_name
              nm prov ac cfgEx u
            = get_result models mappings now_day now_month run_id attempt pydantic_model_name
              nm prov ac cfgExLoose u)) :=
  ⟨rfl, rfl, rfl, rfl, rfl, rfl,
    mode_flag_unread cfgEx cfgExLoose rfl rfl rfl rfl rfl rfl⟩

/-- Claim C10 witness: a report with no usage object (so `requests` reads
`None`) still adds one request to the empty ledger. -/
theorem add_usage_zero_requests_counts_one_witness :
    (((LLMReport.mk "open_router/x" "r" none 0 0 false []).usage.getD
        defaultUsage).requests = none ∨
      ((LLMReport.mk "open_router/x" "r" none 0 0 false []).usage.getD
        defaultUsage).requests = some 0) ∧
      requestsForKey "2026-10-12" "open_router/x" "open_router" (pyOrStr (some "S") "N/A")
          ((add_usage "2026-10-12" "2026-10"
            (LLMReport.mk "open_router/x" "r" none 0 0 false [])
            "open_router/x" "open_router" (some "S") [] emptyHelperUsage).daily_usage)
        = requestsForKey "2026-10-12" "open_router/x" "open_router"
            (pyOrStr (some "S") "N/A") emptyHelperUsage.daily_usage + 1 :=
  ⟨Or.inl rfl,
    add_usage_zero_requests_counts_one "2026-10-12" "2026-10"
      (LLMReport.mk "open_router/x" "r" none 0 0 false [])
      "open_router/x" "open_router" (some "S") [] emptyHelperUsage (Or.inl rfl)⟩

end Scaffold
